import Mathlib

/-!
Verification of the Project Chrono excerpt (Vulkan scene-graph viewer,
Irrlicht debug GUI, JSON-driven track-shoe construction, rigid tire node)
against its natural-language specification.  Each C++ routine named in the
claims is shallowly embedded below; pointers are modelled by natural-number
identifiers, C++ doubles by exact rationals (or reals where the source takes
square roots), and fallible lookups by `Option`.
-/

namespace ChVSGApp

/-- A scene-graph child node as consulted by `ChVSGApp::GetTransform`: a
`vsg` node may carry a "bodyPtr" value, an "assetPtr" value and a
"transform" value; `vsg::Object::getValue` fails when the value is absent,
which is modelled by `Option`.  Pointers and transform handles are modelled
as natural-number identifiers. -/
structure SGChild where
  bodyPtr : Option Nat
  assetPtr : Option Nat
  transform : Option Nat
  deriving DecidableEq

/-- `ChVSGApp::GetTransform`: linear scan over the scene-graph children in
index order.  A child matches when both its "bodyPtr" and "assetPtr" values
are present and equal to the arguments; on a match the child's "transform"
value is returned when present, otherwise (the "ill shaped group node" case,
which only logs a message) the scan continues with the next child; when the
scan ends without success the still-unset result (a null `ref_ptr`) is
returned. -/
def GetTransform : List SGChild → Nat → Nat → Option Nat
  | [], _, _ => none
  | c :: rest, b, a =>
    if c.bodyPtr = some b ∧ c.assetPtr = some a then
      match c.transform with
      | some t => some t
      | none => GetTransform rest b a
    else
      GetTransform rest b a

/-- The behaviour asserted by the specification claim: return the "transform"
value stored on the first child whose "bodyPtr" and "assetPtr" match, and a
null reference when no child matches. -/
def GetTransformClaimed (cs : List SGChild) (b a : Nat) : Option Nat :=
  (cs.find? (fun c => c.bodyPtr == some b && c.assetPtr == some a)).bind
    (fun c => c.transform)

/-- The amended behaviour: return the "transform" value of the first
matching child that actually carries one; children that match the body and
asset but carry no transform are skipped, and a null reference is returned
when no matching child carries a transform (in particular when no child
matches at all). -/
def GetTransformAmended (cs : List SGChild) (b a : Nat) : Option Nat :=
  (cs.find? (fun c =>
      (c.bodyPtr == some b && c.assetPtr == some a) && c.transform.isSome)).bind
    (fun c => c.transform)

end ChVSGApp

/-- C1, counterexample: with a first matching child that carries no
"transform" value and a second matching child that does, `GetTransform`
returns the second child's transform, while the claimed behaviour (the
transform stored on the first matching child) yields none. -/
theorem c1_first_match_counterexample :
    ChVSGApp.GetTransform
        [⟨some 0, some 0, none⟩, ⟨some 0, some 0, some 7⟩] 0 0 = some 7 ∧
      ChVSGApp.GetTransformClaimed
        [⟨some 0, some 0, none⟩, ⟨some 0, some 0, some 7⟩] 0 0 = none := by
  decide

/-- C1 (amended): `GetTransform` performs a straight-line search over the
scene-graph children in index order and returns the "transform" value of the
first child that matches the body and asset AND carries a transform value;
matching children without a transform are skipped, and when no matching
child carries a transform (in particular when no child matches) a null
(empty) transform reference is returned. -/
theorem c1_getTransform_first_transform_bearing_match
    (cs : List ChVSGApp.SGChild) (b a : Nat) :
    ChVSGApp.GetTransform cs b a = ChVSGApp.GetTransformAmended cs b a := by
  induction cs with
  | nil => rfl
  | cons c rest ih =>
    by_cases hb : c.bodyPtr = some b
    · by_cases ha : c.assetPtr = some a
      · have hb' : (c.bodyPtr == some b) = true := by simp [hb]
        have ha' : (c.assetPtr == some a) = true := by simp [ha]
        cases ht : c.transform with
        | some t =>
          simp [ChVSGApp.GetTransform, ChVSGApp.GetTransformAmended,
            List.find?, hb, ha, hb', ha', ht]
        | none =>
          simpa [ChVSGApp.GetTransform, ChVSGApp.GetTransformAmended,
            List.find?, hb, ha, hb', ha', ht] using ih
      · have ha' : (c.assetPtr == some a) = false := by simp [ha]
        simpa [ChVSGApp.GetTransform, ChVSGApp.GetTransformAmended,
          List.find?, hb, ha, ha'] using ih
    · have hb' : (c.bodyPtr == some b) = false := by simp [hb]
      simpa [ChVSGApp.GetTransform, ChVSGApp.GetTransformAmended,
        List.find?, hb, hb'] using ih

namespace ChVSGApp

/-- A 3-vector (Chrono `ChVector<>`); components are modelled as reals since
the cylinder branch of the scene-graph builder takes a Euclidean length. -/
structure V3 where
  x : ℝ
  y : ℝ
  z : ℝ

def vadd (u v : V3) : V3 := ⟨u.x + v.x, u.y + v.y, u.z + v.z⟩

def vsub (u v : V3) : V3 := ⟨u.x - v.x, u.y - v.y, u.z - v.z⟩

/-- `ChVector<>::Length()`: the Euclidean length. -/
noncomputable def vlen (v : V3) : ℝ := Real.sqrt (v.x ^ 2 + v.y ^ 2 + v.z ^ 2)

/-- A quaternion (Chrono `ChQuaternion<>`), components `(e0, e1, e2, e3)`
with `e0` the scalar part. -/
structure Quat where
  e0 : ℝ
  e1 : ℝ
  e2 : ℝ
  e3 : ℝ

/-- Modelled from the spec: the dynamics engine's quaternion composition
(`ChQuaternion::operator%`, i.e. `Qcross`) is external to the excerpt; it is
the standard Hamilton product. -/
def qmul (p q : Quat) : Quat :=
  ⟨p.e0 * q.e0 - p.e1 * q.e1 - p.e2 * q.e2 - p.e3 * q.e3,
   p.e0 * q.e1 + p.e1 * q.e0 + p.e2 * q.e3 - p.e3 * q.e2,
   p.e0 * q.e2 - p.e1 * q.e3 + p.e2 * q.e0 + p.e3 * q.e1,
   p.e0 * q.e3 + p.e1 * q.e2 - p.e2 * q.e1 + p.e3 * q.e0⟩

/-- Modelled from the spec: the dynamics engine's rotation of a vector by a
(unit) quaternion (`ChQuaternion::Rotate`) is external to the excerpt; it is
the standard rotation-matrix action of a unit quaternion. -/
def qrotate (q : Quat) (v : V3) : V3 :=
  ⟨(q.e0 ^ 2 + q.e1 ^ 2 - q.e2 ^ 2 - q.e3 ^ 2) * v.x +
      2 * (q.e1 * q.e2 - q.e0 * q.e3) * v.y + 2 * (q.e1 * q.e3 + q.e0 * q.e2) * v.z,
   2 * (q.e1 * q.e2 + q.e0 * q.e3) * v.x +
      (q.e0 ^ 2 - q.e1 ^ 2 + q.e2 ^ 2 - q.e3 ^ 2) * v.y +
      2 * (q.e2 * q.e3 - q.e0 * q.e1) * v.z,
   2 * (q.e1 * q.e3 - q.e0 * q.e2) * v.x + 2 * (q.e2 * q.e3 + q.e0 * q.e1) * v.y +
      (q.e0 ^ 2 - q.e1 ^ 2 - q.e2 ^ 2 + q.e3 ^ 2) * v.z⟩

/-- The visual asset attached to a body, as inspected by `BuildSceneGraph`
through `dynamic_cast`: a box, sphere, ellipsoid or cylinder shape, or any
other asset (colour, texture, PBR data, ...) for which no node is created. -/
inductive ShapeSpec where
  | box (size : V3)
  | sphere (rad : ℝ)
  | ellipsoid (rad : V3)
  | cylinder (rad : ℝ) (p1 p2 : V3)
  | nonShape

/-- Whether the asset is one of the four shapes the builder turns into a
scene-graph child. -/
def ShapeSpec.isShape : ShapeSpec → Bool
  | .nonShape => false
  | _ => true

/-- An asset: its shape classification together with the `ChVisualization`
position (`Pos`) and local rotation (`Rot`, as a quaternion). -/
structure AssetA where
  shape : ShapeSpec
  pos : V3
  rot : Quat

/-- A rigid body: its absolute reference-frame position and rotation
(`GetFrame_REF_to_abs`) and its asset list. -/
structure BodyA where
  pos : V3
  rot : Quat
  assets : List AssetA

/-- The data of a `vsg::MatrixTransform` child created by the builder: the
matrix is `translate(translation) * rotate(angle, axis) * scale(scaleV)`,
where `(angle, axis)` is the angle-axis decomposition of the normalized
quaternion `rotQ`.  Since `Normalize` followed by `Q_to_AngAxis` depends
only on the direction of the quaternion, the embedding records the
quaternion fed into that decomposition. -/
structure NodeT where
  translation : V3
  rotQ : Quat
  scaleV : V3

/-- The child nodes `ChVSGApp::BuildSceneGraph` creates for one asset of a
body: `center = rot.Rotate(asset.Pos)`, `lrot = rot % asset.Rot` (normalized
and decomposed into the angle-axis used by `vsg::rotate`), and one node per
box/sphere/ellipsoid/cylinder shape with `pos_final = pos + center` and the
shape's size as scale (for a cylinder: radius, radius and the distance
between the two end points). -/
noncomputable def assetNodes (pos : V3) (rot : Quat) (a : AssetA) : List NodeT :=
  let center := qrotate rot a.pos
  let lrot := qmul rot a.rot
  match a.shape with
  | .box size => [⟨vadd pos center, lrot, size⟩]
  | .sphere r => [⟨vadd pos center, lrot, ⟨r, r, r⟩⟩]
  | .ellipsoid rv => [⟨vadd pos center, lrot, rv⟩]
  | .cylinder r p1 p2 => [⟨vadd pos center, lrot, ⟨r, r, vlen (vsub p1 p2)⟩⟩]
  | .nonShape => []

/-- The children one body contributes, in asset order. -/
noncomputable def bodyNodes (b : BodyA) : List NodeT :=
  b.assets.foldr (fun a acc => assetNodes b.pos b.rot a ++ acc) []

/-- `ChVSGApp::BuildSceneGraph`: children are appended to the scene graph
body by body, and per body asset by asset. -/
noncomputable def BuildSceneGraph : List BodyA → List NodeT
  | [] => []
  | b :: rest => bodyNodes b ++ BuildSceneGraph rest

/-- The node the specification claim describes for one asset: as built by
the code, except that the rotation is the BODY's rotation alone. -/
noncomputable def claimedAssetNode (pos : V3) (rot : Quat) (a : AssetA) : List NodeT :=
  match a.shape with
  | .box size => [⟨vadd pos (qrotate rot a.pos), rot, size⟩]
  | .sphere r => [⟨vadd pos (qrotate rot a.pos), rot, ⟨r, r, r⟩⟩]
  | .ellipsoid rv => [⟨vadd pos (qrotate rot a.pos), rot, rv⟩]
  | .cylinder r p1 p2 =>
    [⟨vadd pos (qrotate rot a.pos), rot, ⟨r, r, vlen (vsub p1 p2)⟩⟩]
  | .nonShape => []

/-- The scene graph asserted by the claim as stated. -/
noncomputable def ClaimedSceneGraph (bodies : List BodyA) : List NodeT :=
  (bodies.map (fun b => (b.assets.map (claimedAssetNode b.pos b.rot)).flatten)).flatten

/-- The amended per-asset description: translation is the body position plus
the body-rotated asset offset, the rotation is the body rotation composed
with the asset's local rotation, and the scale is the shape's size. -/
noncomputable def amendedAssetNode (pos : V3) (rot : Quat) (a : AssetA) : List NodeT :=
  match a.shape with
  | .box size => [⟨vadd pos (qrotate rot a.pos), qmul rot a.rot, size⟩]
  | .sphere r => [⟨vadd pos (qrotate rot a.pos), qmul rot a.rot, ⟨r, r, r⟩⟩]
  | .ellipsoid rv => [⟨vadd pos (qrotate rot a.pos), qmul rot a.rot, rv⟩]
  | .cylinder r p1 p2 =>
    [⟨vadd pos (qrotate rot a.pos), qmul rot a.rot, ⟨r, r, vlen (vsub p1 p2)⟩⟩]
  | .nonShape => []

/-- The amended scene-graph description. -/
noncomputable def AmendedSceneGraph (bodies : List BodyA) : List NodeT :=
  (bodies.map (fun b => (b.assets.map (amendedAssetNode b.pos b.rot)).flatten)).flatten

/-- Total number of box/sphere/ellipsoid/cylinder assets over all bodies. -/
def shapeAssetCount (bodies : List BodyA) : Nat :=
  (bodies.map (fun b => b.assets.countP (fun a => a.shape.isShape))).sum

/-- The concrete counterexample input: a body at the origin with identity
rotation carrying a single box asset whose local rotation is a half turn
about the z axis. -/
noncomputable def cexBody : BodyA :=
  ⟨⟨0, 0, 0⟩, ⟨1, 0, 0, 0⟩,
   [⟨ShapeSpec.box ⟨1, 1, 1⟩, ⟨0, 0, 0⟩, ⟨0, 0, 0, 1⟩⟩]⟩

end ChVSGApp

namespace ChVSGApp

theorem assetNodes_eq_amended (pos : V3) (rot : Quat) (a : AssetA) :
    assetNodes pos rot a = amendedAssetNode pos rot a := by
  rcases a with ⟨s, ap, ar⟩
  cases s <;> rfl

theorem assetNodes_length (pos : V3) (rot : Quat) (a : AssetA) :
    (assetNodes pos rot a).length = if a.shape.isShape then 1 else 0 := by
  rcases a with ⟨s, ap, ar⟩
  cases s <;> rfl

theorem foldrNodes_eq (pos : V3) (rot : Quat) (l : List AssetA) :
    l.foldr (fun a acc => assetNodes pos rot a ++ acc) [] =
      (l.map (amendedAssetNode pos rot)).flatten := by
  induction l with
  | nil => rfl
  | cons a rest ih =>
    simp only [List.foldr_cons, List.map_cons, List.flatten_cons]
    rw [ih, assetNodes_eq_amended]

theorem bodyNodes_eq (b : BodyA) :
    bodyNodes b = (b.assets.map (amendedAssetNode b.pos b.rot)).flatten :=
  foldrNodes_eq b.pos b.rot b.assets

theorem bodyNodes_length (b : BodyA) :
    (bodyNodes b).length = b.assets.countP (fun a => a.shape.isShape) := by
  rw [bodyNodes]
  induction b.assets with
  | nil => rfl
  | cons a rest ih =>
    simp only [List.foldr, List.length_append, ih, assetNodes_length,
      List.countP_cons]
    cases h : a.shape.isShape <;> simp [h, Nat.add_comm]

end ChVSGApp

/-- C2, counterexample: for a body with identity rotation carrying a box
asset whose local rotation is a half turn about z, the scene-graph child
built by `BuildSceneGraph` carries the combined rotation (the half turn),
not the body's rotation (the identity) asserted by the claim. -/
theorem c2_body_rotation_counterexample :
    ChVSGApp.BuildSceneGraph [ChVSGApp.cexBody] ≠
      ChVSGApp.ClaimedSceneGraph [ChVSGApp.cexBody] := by
  simp only [ChVSGApp.BuildSceneGraph, ChVSGApp.bodyNodes, ChVSGApp.assetNodes,
    ChVSGApp.ClaimedSceneGraph, ChVSGApp.claimedAssetNode, ChVSGApp.cexBody,
    ChVSGApp.qmul, ChVSGApp.qrotate, ChVSGApp.vadd, List.map, List.foldr,
    List.flatten, List.append_nil, List.nil_append]
  intro h
  injection h with hhead htail
  have h0 := congrArg (fun n => n.rotQ.e0) hhead
  norm_num at h0

/-- C2 (amended): `BuildSceneGraph` adds, for every body in the system's
body list and every box/sphere/ellipsoid/cylinder asset of that body,
exactly one scene-graph child (so the number of children is the number of
such shape assets), whose transform is built from the body's absolute
reference-frame position plus the body-rotated asset offset, the body's
rotation COMPOSED WITH the asset's local rotation (normalized and turned
into angle-axis), and the shape's size. -/
theorem c2_buildSceneGraph_nodes (bodies : List ChVSGApp.BodyA) :
    ChVSGApp.BuildSceneGraph bodies = ChVSGApp.AmendedSceneGraph bodies ∧
      (ChVSGApp.BuildSceneGraph bodies).length =
        ChVSGApp.shapeAssetCount bodies := by
  constructor
  · induction bodies with
    | nil => rfl
    | cons b rest ih =>
      simp [ChVSGApp.BuildSceneGraph, ChVSGApp.AmendedSceneGraph,
        ChVSGApp.bodyNodes_eq, ih]
  · induction bodies with
    | nil => rfl
    | cons b rest ih =>
      simp [ChVSGApp.BuildSceneGraph, ChVSGApp.shapeAssetCount,
        ChVSGApp.bodyNodes_length, ih]

namespace ChVSGApp

/-- The counter state driving the scene-graph refresh cadence, plus the
simulated time of `m_system` (each `DoStepDynamics(m_timeStep)` advances it
by the step size). -/
structure TimeStepState where
  counter : Nat
  time : ℚ

/-- `ChVSGApp::doTimeStep`: advance the dynamics by one step of size `dt`,
run `UpdateSceneGraph` exactly when the wait counter equals
`m_wait_counter_max` (the returned flag), then `IncreaseWaitCounter`:
increment, wrapping back to 1 when the counter exceeds the maximum. -/
def doTimeStep (maxC : Nat) (dt : ℚ) (s : TimeStepState) : TimeStepState × Bool :=
  let updated := s.counter == maxC
  let bumped := s.counter + 1
  (⟨if maxC < bumped then 1 else bumped, s.time + dt⟩, updated)

/-- The state after `n` calls to `doTimeStep`, starting from the
constructor's state: `m_wait_counter = 1` and time 0. -/
def stateAfter (maxC : Nat) (dt : ℚ) : Nat → TimeStepState
  | 0 => ⟨1, 0⟩
  | n + 1 => (doTimeStep maxC dt (stateAfter maxC dt n)).1

/-- Whether the `n`-th call to `doTimeStep` (counting from 1) runs
`UpdateSceneGraph`. -/
def updatesOnCall (maxC : Nat) (dt : ℚ) (n : Nat) : Bool :=
  (doTimeStep maxC dt (stateAfter maxC dt (n - 1))).2

/-- The wait-state adjustment in `ChVSGApp::Initialize`:
`m_wait_counter_max` is 1 when the output step is at most the time step and
`size_t(m_outputStep / m_timeStep)` (truncation of the positive quotient)
otherwise. -/
def waitCounterMax (outputStep timeStep : ℚ) : Nat :=
  if outputStep ≤ timeStep then 1 else (⌊outputStep / timeStep⌋).toNat

/-- The observable state of a `ChVSGApp` as far as `Initialize` touches it:
the stored system pointer, the wait-counter maximum, whether the scene graph
was filled from the physical system, whether the window object was stored,
and whether the viewer was fully configured (camera, handlers, command
graph, compile). -/
structure VSGAppState where
  m_system : Option Nat
  m_wait_counter_max : Nat
  graph_built : Bool
  window_stored : Bool
  viewer_configured : Bool
  deriving DecidableEq

/-- `ChVSGApp::Initialize`: with a null system pointer it returns false at
once (storing nothing); otherwise it stores the system, adjusts the wait
states, builds the scene graph, and creates the window — when window
creation fails (`windowOk = false`) it logs and returns false, otherwise it
configures the viewer and returns true. -/
def Initialize (windowOk : Bool) (outputStep timeStep : ℚ)
    (st : VSGAppState) (sys : Option Nat) : VSGAppState × Bool :=
  match sys with
  | none => (st, false)
  | some s =>
    let st1 : VSGAppState :=
      { st with
        m_system := some s
        m_wait_counter_max := waitCounterMax outputStep timeStep
        graph_built := true
        window_stored := windowOk }
    if windowOk then ({ st1 with viewer_configured := true }, true)
    else (st1, false)

/-- Counter invariant: after `k` calls the wait counter is `k % maxC + 1`
(for a positive maximum). -/
theorem stateAfter_counter (maxC : Nat) (dt : ℚ) (hm : 1 ≤ maxC) (k : Nat) :
    (stateAfter maxC dt k).counter = k % maxC + 1 := by
  induction k with
  | zero => simp [stateAfter]
  | succ k ih =>
    have hr : k % maxC < maxC := Nat.mod_lt _ (by omega)
    simp only [stateAfter, doTimeStep, ih]
    by_cases hlast : k % maxC + 1 = maxC
    · have h1 : maxC < k % maxC + 1 + 1 := by omega
      have h2 : (k + 1) % maxC = 0 := by
        have hd := Nat.div_add_mod k maxC
        have : k + 1 = maxC * (k / maxC) + maxC := by omega
        simp [this, Nat.add_mul_mod_self_left, Nat.mul_mod_right]
      simp [h1, h2]
    · have h1 : ¬ maxC < k % maxC + 1 + 1 := by omega
      have h2 : (k + 1) % maxC = k % maxC + 1 := by
        have hd := Nat.div_add_mod k maxC
        have hlt : k % maxC + 1 < maxC := by omega
        have : k + 1 = (k % maxC + 1) + maxC * (k / maxC) := by omega
        rw [this, Nat.add_mul_mod_self_left, Nat.mod_eq_of_lt hlt]
      simp [h1, h2]

/-- Degenerate counter invariant: with `maxC = 0` the counter is always 1. -/
theorem stateAfter_counter_zero (dt : ℚ) (k : Nat) :
    (stateAfter 0 dt k).counter = 1 := by
  induction k with
  | zero => rfl
  | succ k ih => simp [stateAfter, doTimeStep, ih]

/-- Time invariant: `n` calls advance the simulated time by `n` steps. -/
theorem stateAfter_time (maxC : Nat) (dt : ℚ) (k : Nat) :
    (stateAfter maxC dt k).time = k * dt := by
  induction k with
  | zero => simp [stateAfter]
  | succ k ih =>
    simp [stateAfter, doTimeStep, ih]
    ring

end ChVSGApp

/-- C3: every call to `doTimeStep` advances the physics by one step of size
`m_timeStep` (both per call and cumulatively), `UpdateSceneGraph` runs on
the n-th call exactly when n is a multiple of `m_wait_counter_max` (the
counter starting at 1), and when the output step is at most the time step,
`Initialize` sets `m_wait_counter_max` to 1 — so the scene graph is then
updated on every call. -/
theorem c3_doTimeStep_cadence (maxC : Nat) (dt : ℚ) (n : Nat) (hn : 1 ≤ n) :
    (∀ s : ChVSGApp.TimeStepState,
        (ChVSGApp.doTimeStep maxC dt s).1.time = s.time + dt) ∧
      (ChVSGApp.stateAfter maxC dt n).time = n * dt ∧
      (ChVSGApp.updatesOnCall maxC dt n = true ↔ maxC ∣ n) ∧
      (∀ (windowOk : Bool) (oS tS : ℚ) (st : ChVSGApp.VSGAppState) (s : Nat),
        oS ≤ tS →
          (ChVSGApp.Initialize windowOk oS tS st (some s)).1.m_wait_counter_max
            = 1) := by
  refine ⟨fun s => by simp [ChVSGApp.doTimeStep],
    ChVSGApp.stateAfter_time maxC dt n, ?_, ?_⟩
  · rcases Nat.eq_zero_or_pos maxC with hm0 | hm1
    · subst hm0
      simp only [ChVSGApp.updatesOnCall, ChVSGApp.doTimeStep,
        ChVSGApp.stateAfter_counter_zero]
      constructor
      · intro h
        simp at h
      · intro h
        omega
    · simp only [ChVSGApp.updatesOnCall, ChVSGApp.doTimeStep,
        ChVSGApp.stateAfter_counter maxC dt hm1 (n - 1)]
      have hd := Nat.div_add_mod (n - 1) maxC
      have hr : (n - 1) % maxC < maxC := Nat.mod_lt _ (by omega)
      constructor
      · intro h
        have he : (n - 1) % maxC + 1 = maxC := by simpa using h
        refine ⟨(n - 1) / maxC + 1, ?_⟩
        rw [Nat.mul_add, Nat.mul_one]
        omega
      · rintro ⟨t, ht⟩
        rcases t with _ | t
        · omega
        · have hsplit : n - 1 = (maxC - 1) + maxC * t := by
            rw [Nat.mul_succ] at ht
            omega
          have hmod : (n - 1) % maxC = maxC - 1 := by
            rw [hsplit, Nat.add_mul_mod_self_left,
              Nat.mod_eq_of_lt (by omega)]
          simp [hmod]
          omega
  · intro windowOk oS tS st s hle
    cases windowOk <;>
      simp [ChVSGApp.Initialize, ChVSGApp.waitCounterMax, hle]

/-- Witness for C3 at `m_wait_counter_max = 2`, `m_timeStep = 1`, call 4. -/
theorem c3_doTimeStep_cadence_witness :
    (∀ s : ChVSGApp.TimeStepState,
        (ChVSGApp.doTimeStep 2 1 s).1.time = s.time + 1) ∧
      (ChVSGApp.stateAfter 2 1 4).time = 4 * 1 ∧
      (ChVSGApp.updatesOnCall 2 1 4 = true ↔ 2 ∣ 4) ∧
      (∀ (windowOk : Bool) (oS tS : ℚ) (st : ChVSGApp.VSGAppState) (s : Nat),
        oS ≤ tS →
          (ChVSGApp.Initialize windowOk oS tS st (some s)).1.m_wait_counter_max
            = 1) :=
  c3_doTimeStep_cadence 2 1 4 (by norm_num)

/-- C10: `Initialize` returns false without touching the state when given a
null system pointer; it returns false whenever window creation fails; it
returns true exactly when the system pointer is non-null and the window was
created, and in that case the system pointer has been stored, the scene
graph has been built and the viewer configured. -/
theorem c10_initialize_error_handling (windowOk : Bool) (oS tS : ℚ)
    (st : ChVSGApp.VSGAppState) (sys : Option Nat) :
    ChVSGApp.Initialize windowOk oS tS st none = (st, false) ∧
      (windowOk = false →
        (ChVSGApp.Initialize windowOk oS tS st sys).2 = false) ∧
      ((ChVSGApp.Initialize windowOk oS tS st sys).2 = true ↔
        sys.isSome = true ∧ windowOk = true) ∧
      ((ChVSGApp.Initialize windowOk oS tS st sys).2 = true →
        (ChVSGApp.Initialize windowOk oS tS st sys).1.m_system = sys ∧
          (ChVSGApp.Initialize windowOk oS tS st sys).1.graph_built = true ∧
          (ChVSGApp.Initialize windowOk oS tS st sys).1.viewer_configured
            = true) := by
  rcases sys with _ | s <;> cases windowOk <;> simp [ChVSGApp.Initialize]

/-- Witness for C10: a failing run without a system, a failing run without a
window, and a successful run. -/
theorem c10_initialize_error_handling_witness :
    ChVSGApp.Initialize false 1 1 ⟨none, 1, false, false, false⟩ none =
        (⟨none, 1, false, false, false⟩, false) ∧
      (ChVSGApp.Initialize false 1 1 ⟨none, 1, false, false, false⟩
          (some 3)).2 = false ∧
      (ChVSGApp.Initialize true 1 1 ⟨none, 1, false, false, false⟩
          (some 3)).1.graph_built = true :=
  ⟨(c10_initialize_error_handling false 1 1 ⟨none, 1, false, false, false⟩
      none).1,
   (c10_initialize_error_handling false 1 1 ⟨none, 1, false, false, false⟩
      (some 3)).2.1 rfl,
   ((c10_initialize_error_handling true 1 1 ⟨none, 1, false, false, false⟩
      (some 3)).2.2.2 (by decide)).2.1⟩

namespace ChIrrGUI

/-- The Irrlicht keys the built-in receiver recognizes, plus a stand-in for
every other key (the `default: break` case). -/
inductive IrrKey where
  | keyI | keyO | keyU | keySpace | keyF8 | keyF6 | keyF7
  | keyF4 | keyF3 | keyF2 | keyEsc | keyF12 | keyOther
  deriving DecidableEq

/-- The GUI event sub-types the receiver inspects. -/
inductive GuiEvType where
  | editboxEnter | scrollBarChanged | otherGui
  deriving DecidableEq

/-- A GUI event: its sub-type, the caller widget id, the caller's text as
parsed by `atof` (relevant for edit boxes) and the scroll position
(relevant for scroll bars). -/
structure GuiEvent where
  etype : GuiEvType
  callerId : Int
  text : ℚ
  pos : Int
  deriving DecidableEq

/-- An `irr::SEvent` as far as `ChIrrEventReceiver::OnEvent` looks at it. -/
inductive SEvent where
  | keyInput (key : IrrKey) (pressedDown : Bool)
  | gui (g : GuiEvent)
  | otherEvent
  deriving DecidableEq

/-- The `ChIrrGUI` state touched by the event receiver and the setters. -/
structure GuiState where
  show_infos : Bool
  show_profiler : Bool
  show_explorer : Bool
  utility_flag : Bool
  solver_matrix_write : Bool
  camera_auto_rotate_speed : ℚ
  symbolscale : ℚ
  modal_amplitude : ℚ
  modal_speed : ℚ
  modal_mode_n : Int
  device_closed : Bool
  deriving DecidableEq

/-- The `ChIrrGUI` constructor's initial values of those fields. -/
def initialGuiState : GuiState :=
  ⟨false, false, false, false, false, 0, 1, 1 / 10, 1, 0, false⟩

/-- `ChIrrGUI::SetSymbolscale`: clamp from below by `10e-12` and store
(the edit-box text refresh is a side effect outside the model). -/
def SetSymbolscale (st : GuiState) (v : ℚ) : GuiState :=
  { st with symbolscale := max (1 / 10 ^ 11) v }

/-- `ChIrrGUI::SetModalAmplitude`: clamp from below by 0 and store. -/
def SetModalAmplitude (st : GuiState) (v : ℚ) : GuiState :=
  { st with modal_amplitude := max 0 v }

/-- `ChIrrGUI::SetModalSpeed`: clamp from below by 0 and store. -/
def SetModalSpeed (st : GuiState) (v : ℚ) : GuiState :=
  { st with modal_speed := max 0 v }

/-- The built-in event processing of `ChIrrEventReceiver::OnEvent` after the
user receivers have declined: the keyboard block (guarded by
`!event.KeyInput.PressedDown`), then the GUI block, then `return false`.
F8/F6 only write dump files (side effects outside the model); F12's Blender
toggling is compile-time optional and also returns true either way. -/
def builtinOnEvent (st : GuiState) (e : SEvent) : GuiState × Bool :=
  match e with
  | .keyInput k pressed =>
    if pressed then (st, false)
    else
      match k with
      | .keyI => ({ st with show_infos := !st.show_infos }, true)
      | .keyO => ({ st with show_profiler := !st.show_profiler }, true)
      | .keyU => ({ st with show_explorer := !st.show_explorer }, true)
      | .keySpace => ({ st with utility_flag := !st.utility_flag }, true)
      | .keyF8 => (st, true)
      | .keyF6 => (st, true)
      | .keyF7 =>
        ({ st with solver_matrix_write := !st.solver_matrix_write }, true)
      | .keyF4 =>
        ({ st with camera_auto_rotate_speed :=
            if st.camera_auto_rotate_speed ≤ 0 then 1 / 50
            else st.camera_auto_rotate_speed * (3 / 2) }, true)
      | .keyF3 => ({ st with camera_auto_rotate_speed := 0 }, true)
      | .keyF2 =>
        ({ st with camera_auto_rotate_speed :=
            if 0 ≤ st.camera_auto_rotate_speed then -(1 / 50)
            else st.camera_auto_rotate_speed * (3 / 2) }, true)
      | .keyEsc => ({ st with device_closed := true }, true)
      | .keyF12 => (st, true)
      | .keyOther => (st, false)
  | .gui g =>
    match g.etype with
    | .editboxEnter =>
      if g.callerId = 9921 then (SetSymbolscale st g.text, false)
      else if g.callerId = 9927 then (SetModalAmplitude st g.text, false)
      else if g.callerId = 9928 then (SetModalSpeed st g.text, false)
      else (st, false)
    | .scrollBarChanged =>
      if g.callerId = 9926 then ({ st with modal_mode_n := g.pos }, false)
      else (st, false)
    | .otherGui => (st, false)
  | .otherEvent => (st, false)

/-- The user-receiver loop at the top of `OnEvent`: each registered receiver
is offered the event in turn until one returns true.  The result records
whether some receiver handled the event and how many receivers were
called. -/
def offerToUsers : List (SEvent → Bool) → SEvent → Bool × Nat
  | [], _ => (false, 0)
  | r :: rs, e =>
    if r e then (true, 1)
    else
      let p := offerToUsers rs e
      (p.1, p.2 + 1)

/-- `ChIrrEventReceiver::OnEvent`: user receivers first (returning true
immediately when one of them handles the event), then the built-in keyboard
and GUI processing. -/
def OnEvent (rs : List (SEvent → Bool)) (st : GuiState) (e : SEvent) :
    GuiState × Bool :=
  if (offerToUsers rs e).1 then (st, true) else builtinOnEvent st e

/-- `ChIrrGUI::AddUserEventReceiver`: `push_back` on the receiver list. -/
def AddUserEventReceiver (rs : List (SEvent → Bool)) (r : SEvent → Bool) :
    List (SEvent → Bool) :=
  rs ++ [r]

/-- Events for which the built-in processing has a dedicated case: a
recognized key released, or a recognized GUI widget (edit boxes 9921, 9927,
9928 on enter; scroll bar 9926 on change). -/
def builtinRecognized : SEvent → Bool
  | .keyInput k pressed => !pressed && !(k == IrrKey.keyOther)
  | .gui g =>
    (g.etype == GuiEvType.editboxEnter &&
      (g.callerId == 9921 || g.callerId == 9927 || g.callerId == 9928)) ||
    (g.etype == GuiEvType.scrollBarChanged && g.callerId == 9926)
  | .otherEvent => false

theorem offerToUsers_all_false (e : SEvent) (rs : List (SEvent → Bool))
    (h : ∀ r ∈ rs, r e = false) :
    offerToUsers rs e = (false, rs.length) := by
  induction rs with
  | nil => rfl
  | cons r rest ih =>
    have hr : r e = false := h r (List.mem_cons_self r rest)
    have hrest : ∀ q ∈ rest, q e = false :=
      fun q hq => h q (List.mem_cons_of_mem r hq)
    simp [offerToUsers, hr, ih hrest]

theorem offerToUsers_first_true (e : SEvent) (rs : List (SEvent → Bool))
    (h : ∃ r ∈ rs, r e = true) :
    offerToUsers rs e = (true, rs.findIdx (fun r => r e) + 1) := by
  induction rs with
  | nil => simp at h
  | cons r rest ih =>
    cases hr : r e with
    | true => simp [offerToUsers, hr, List.findIdx_cons]
    | false =>
      have hrest : ∃ q ∈ rest, q e = true := by
        rcases h with ⟨q, hq, hqe⟩
        rcases List.mem_cons.mp hq with rfl | hq2
        · exact absurd hqe (by simp [hr])
        · exact ⟨q, hq2, hqe⟩
      simp [offerToUsers, hr, ih hrest, List.findIdx_cons]

end ChIrrGUI

/-- C4: for any event the user receivers decline, keyboard events are acted
on only when the key is released (a pressed-down key event changes nothing
and yields false); releasing I toggles `show_infos`, O toggles
`show_profiler`, U toggles `show_explorer`, each returning true; and any
event without a dedicated built-in case (unrecognized key, unrecognized GUI
widget, other event type) makes `OnEvent` return false. -/
theorem c4_onEvent_keyboard (rs : List (ChIrrGUI.SEvent → Bool))
    (st : ChIrrGUI.GuiState) :
    (∀ k : ChIrrGUI.IrrKey,
        (∀ r ∈ rs, r (.keyInput k true) = false) →
          ChIrrGUI.OnEvent rs st (.keyInput k true) = (st, false)) ∧
      ((∀ r ∈ rs, r (.keyInput .keyI false) = false) →
        ChIrrGUI.OnEvent rs st (.keyInput .keyI false) =
          ({ st with show_infos := !st.show_infos }, true)) ∧
      ((∀ r ∈ rs, r (.keyInput .keyO false) = false) →
        ChIrrGUI.OnEvent rs st (.keyInput .keyO false) =
          ({ st with show_profiler := !st.show_profiler }, true)) ∧
      ((∀ r ∈ rs, r (.keyInput .keyU false) = false) →
        ChIrrGUI.OnEvent rs st (.keyInput .keyU false) =
          ({ st with show_explorer := !st.show_explorer }, true)) ∧
      (∀ e : ChIrrGUI.SEvent, (∀ r ∈ rs, r e = false) →
        ChIrrGUI.builtinRecognized e = false →
          ChIrrGUI.OnEvent rs st e = (st, false)) := by
  have hbuiltin : ∀ e, (∀ r ∈ rs, r e = false) →
      ChIrrGUI.OnEvent rs st e = ChIrrGUI.builtinOnEvent st e :=
    fun e he => by
      simp [ChIrrGUI.OnEvent, ChIrrGUI.offerToUsers_all_false e rs he]
  refine ⟨fun k hk => ?_, fun hs => ?_, fun hs => ?_, fun hs => ?_,
    fun e he hrec => ?_⟩
  · rw [hbuiltin _ hk]; rfl
  · rw [hbuiltin _ hs]; rfl
  · rw [hbuiltin _ hs]; rfl
  · rw [hbuiltin _ hs]; rfl
  · rw [hbuiltin _ he]
    match e with
    | .keyInput k pressed =>
      cases pressed with
      | true => rfl
      | false =>
        have hk : k = ChIrrGUI.IrrKey.keyOther := by
          simpa [ChIrrGUI.builtinRecognized] using hrec
        subst hk
        rfl
    | .gui g =>
      rcases g with ⟨et, cid, tx, ps⟩
      cases et with
      | editboxEnter =>
        have hid : (¬ cid = 9921 ∧ ¬ cid = 9927) ∧ ¬ cid = 9928 := by
          simpa [ChIrrGUI.builtinRecognized] using hrec
        simp [ChIrrGUI.builtinOnEvent, hid.1.1, hid.1.2, hid.2]
      | scrollBarChanged =>
        have hid : ¬ cid = 9926 := by
          simpa [ChIrrGUI.builtinRecognized] using hrec
        simp [ChIrrGUI.builtinOnEvent, hid]
      | otherGui => rfl
    | .otherEvent => rfl

/-- Witness for C4: an empty user-receiver list and the constructor state,
with the I key pressed and released and an unrecognized event. -/
theorem c4_onEvent_keyboard_witness :
    ChIrrGUI.OnEvent [] ChIrrGUI.initialGuiState (.keyInput .keyI true) =
        (ChIrrGUI.initialGuiState, false) ∧
      ChIrrGUI.OnEvent [] ChIrrGUI.initialGuiState (.keyInput .keyI false) =
        ({ ChIrrGUI.initialGuiState with
            show_infos := !ChIrrGUI.initialGuiState.show_infos }, true) ∧
      ChIrrGUI.OnEvent [] ChIrrGUI.initialGuiState .otherEvent =
        (ChIrrGUI.initialGuiState, false) :=
  ⟨(c4_onEvent_keyboard [] ChIrrGUI.initialGuiState).1 .keyI (by simp),
   (c4_onEvent_keyboard [] ChIrrGUI.initialGuiState).2.1 (by simp),
   (c4_onEvent_keyboard [] ChIrrGUI.initialGuiState).2.2.2.2 .otherEvent
     (by simp) rfl⟩

/-- C5: every event is first offered to the user-registered receivers in
registration order (`AddUserEventReceiver` appends at the back); when one of
them handles the event, `OnEvent` returns true immediately with the state
untouched, and exactly the receivers up to and including the first one that
returns true were called; when none handles it, all receivers were called
and the built-in processing runs. -/
theorem c5_user_receivers_first (rs : List (ChIrrGUI.SEvent → Bool))
    (st : ChIrrGUI.GuiState) (e : ChIrrGUI.SEvent) (r : ChIrrGUI.SEvent → Bool) :
    ((∃ q ∈ rs, q e = true) →
        ChIrrGUI.OnEvent rs st e = (st, true) ∧
          ChIrrGUI.offerToUsers rs e =
            (true, rs.findIdx (fun q => q e) + 1)) ∧
      ((∀ q ∈ rs, q e = false) →
        ChIrrGUI.offerToUsers rs e = (false, rs.length) ∧
          ChIrrGUI.OnEvent rs st e = ChIrrGUI.builtinOnEvent st e) ∧
      ChIrrGUI.AddUserEventReceiver rs r = rs ++ [r] := by
  refine ⟨fun h => ?_, fun h => ?_, rfl⟩
  · have ho := ChIrrGUI.offerToUsers_first_true e rs h
    exact ⟨by simp [ChIrrGUI.OnEvent, ho], ho⟩
  · have ho := ChIrrGUI.offerToUsers_all_false e rs h
    exact ⟨ho, by simp [ChIrrGUI.OnEvent, ho]⟩

/-- Witness for C5: two receivers, of which the second handles the event. -/
theorem c5_user_receivers_first_witness :
    ChIrrGUI.OnEvent [fun _ => false, fun _ => true]
        ChIrrGUI.initialGuiState .otherEvent =
        (ChIrrGUI.initialGuiState, true) ∧
      ChIrrGUI.offerToUsers [fun _ => false, fun _ => true] .otherEvent =
        (true,
          List.findIdx (fun q => q ChIrrGUI.SEvent.otherEvent)
            [fun _ => false, fun _ => true] + 1) :=
  (c5_user_receivers_first [fun _ => false, fun _ => true]
      ChIrrGUI.initialGuiState .otherEvent (fun _ => false)).1
    ⟨fun _ => true, List.Mem.tail _ (List.Mem.head _), rfl⟩

/-- C9: the GUI setters clamp for every input: `SetSymbolscale` stores
`max(10e-12, v)`, which is strictly positive; `SetModalAmplitude` and
`SetModalSpeed` store `max(0, v)`, which is never negative. -/
theorem c9_gui_setters_clamp (st : ChIrrGUI.GuiState) (v : ℚ) :
    ((ChIrrGUI.SetSymbolscale st v).symbolscale = max (1 / 10 ^ 11) v ∧
        0 < (ChIrrGUI.SetSymbolscale st v).symbolscale) ∧
      ((ChIrrGUI.SetModalAmplitude st v).modal_amplitude = max 0 v ∧
        0 ≤ (ChIrrGUI.SetModalAmplitude st v).modal_amplitude) ∧
      ((ChIrrGUI.SetModalSpeed st v).modal_speed = max 0 v ∧
        0 ≤ (ChIrrGUI.SetModalSpeed st v).modal_speed) := by
  refine ⟨⟨rfl, ?_⟩, ⟨rfl, le_max_left 0 v⟩, ⟨rfl, le_max_left 0 v⟩⟩
  have h1 : (0 : ℚ) < 1 / 10 ^ 11 := by norm_num
  exact lt_max_iff.mpr (Or.inl h1)

namespace TrackShoeDoublePin

/-- A JSON value (`rapidjson::Value`), with numbers as exact rationals. -/
inductive JVal where
  | null
  | boolean (b : Bool)
  | num (q : ℚ)
  | str (s : String)
  | arr (elems : List JVal)
  | obj (fields : List (String × JVal))

/-- Object member lookup (`HasMember` / `operator[]` pair behaviour). -/
def member : JVal → String → Option JVal
  | .obj fields, name => (fields.find? (fun f => f.1 == name)).map (fun f => f.2)
  | _, _ => none

/-- `rapidjson HasMember`. -/
def hasMember (d : JVal) (name : String) : Bool := (member d name).isSome

/-- `d[name]`, which the source only applies after asserting the member
exists; an absent member is modelled as null. -/
def mget (d : JVal) (name : String) : JVal := (member d name).getD JVal.null

/-- `GetDouble` on a number value. -/
def getDouble : JVal → ℚ
  | .num q => q
  | _ => 0

/-- `GetString` on a string value. -/
def getString : JVal → String
  | .str s => s
  | _ => ""

/-- `GetInt` on a number value. -/
def getIntJ : JVal → Int
  | .num q => ⌊q⌋
  | _ => 0

/-- `IsArray`-checked element access: the elements of an array value. -/
def getArr : JVal → List JVal
  | .arr l => l
  | _ => []

/-- Modelled from the spec: `ReadVectorJSON` (in `ChUtilsJSON`, outside the
excerpt) turns a 3-element JSON array into a `ChVector`. -/
def ReadVectorJSON : JVal → ℚ × ℚ × ℚ
  | .arr [a, b, c] => (getDouble a, getDouble b, getDouble c)
  | _ => (0, 0, 0)

/-- Modelled from the spec: `ReadQuaternionJSON` (in `ChUtilsJSON`, outside
the excerpt) turns a 4-element JSON array into a `ChQuaternion`. -/
def ReadQuaternionJSON : JVal → ℚ × ℚ × ℚ × ℚ
  | .arr [a, b, c, d] => (getDouble a, getDouble b, getDouble c, getDouble d)
  | _ => (0, 0, 0, 0)

/-- A contact-material description (`MaterialInfo`). -/
structure MatInfo where
  raw : JVal

/-- Modelled from the spec: `ReadMaterialInfoJSON` (in `ChUtilsJSON`,
outside the excerpt) reads the contact-material properties of one JSON
material object; modelled as capturing that object. -/
def ReadMaterialInfoJSON (v : JVal) : MatInfo := ⟨v⟩

/-- A `BoxShape` entry (position, orientation, dimensions, material index;
the visualization constructor leaves the material index at its default,
modelled as -1). -/
structure BoxShapeJ where
  pos : ℚ × ℚ × ℚ
  rot : ℚ × ℚ × ℚ × ℚ
  dims : ℚ × ℚ × ℚ
  matID : Int

/-- A `CylinderShape` entry (position, orientation, radius, length,
material index; default material index modelled as -1). -/
structure CylShapeJ where
  pos : ℚ × ℚ × ℚ
  rot : ℚ × ℚ × ℚ × ℚ
  radius : ℚ
  length : ℚ
  matID : Int

/-- The fields of `TrackShoeDoublePin` populated by `Create` (the base
`ChPart::Create` call only reads identification data and is outside the
claims). -/
structure TrackShoePart where
  shoe_length : ℚ
  shoe_width : ℚ
  shoe_height : ℚ
  shoe_mass : ℚ
  shoe_inertia : ℚ × ℚ × ℚ
  connector_radius : ℚ
  connector_length : ℚ
  connector_width : ℚ
  connector_mass : ℚ
  connector_inertia : ℚ × ℚ × ℚ
  cyl_mat_info : MatInfo
  shoe_mat_info : List MatInfo
  coll_boxes : List BoxShapeJ
  coll_cylinders : List CylShapeJ
  meshFile : String
  has_mesh : Bool
  vis_boxes : List BoxShapeJ
  vis_cylinders : List CylShapeJ

/-- One iteration of the "Shoe Shapes" loop: a BOX entry is pushed onto the
box list, a CYLINDER entry onto the cylinder list, anything else is
skipped. -/
def collStep (acc : List BoxShapeJ × List CylShapeJ) (shape : JVal) :
    List BoxShapeJ × List CylShapeJ :=
  if getString (mget shape ("Type")) == "BOX" then
    (acc.1 ++ [⟨ReadVectorJSON (mget shape ("Location")),
               ReadQuaternionJSON (mget shape ("Orientation")),
               ReadVectorJSON (mget shape ("Dimensions")),
               getIntJ (mget shape ("Material Index"))⟩], acc.2)
  else if getString (mget shape ("Type")) == "CYLINDER" then
    (acc.1, acc.2 ++ [⟨ReadVectorJSON (mget shape ("Location")),
                      ReadQuaternionJSON (mget shape ("Orientation")),
                      getDouble (mget shape ("Radius")),
                      getDouble (mget shape ("Length")),
                      getIntJ (mget shape ("Material Index"))⟩])
  else acc

/-- The "Shoe Shapes" loop of `Create`. -/
def collShoeShapes (shapes : List JVal) : List BoxShapeJ × List CylShapeJ :=
  shapes.foldl collStep ([], [])

/-- One iteration of the "Visualization"/"Primitives" loop (no material
index is given to the constructors). -/
def visStep (acc : List BoxShapeJ × List CylShapeJ) (shape : JVal) :
    List BoxShapeJ × List CylShapeJ :=
  if getString (mget shape ("Type")) == "BOX" then
    (acc.1 ++ [⟨ReadVectorJSON (mget shape ("Location")),
               ReadQuaternionJSON (mget shape ("Orientation")),
               ReadVectorJSON (mget shape ("Dimensions")), -1⟩], acc.2)
  else if getString (mget shape ("Type")) == "CYLINDER" then
    (acc.1, acc.2 ++ [⟨ReadVectorJSON (mget shape ("Location")),
                      ReadQuaternionJSON (mget shape ("Orientation")),
                      getDouble (mget shape ("Radius")),
                      getDouble (mget shape ("Length")), -1⟩])
  else acc

/-- The "Primitives" loop of `Create`. -/
def visShoeShapes (shapes : List JVal) : List BoxShapeJ × List CylShapeJ :=
  shapes.foldl visStep ([], [])

/-- `push_back` of every element of `src` onto `dst`, in order (the
"default to the collision shapes" loops). -/
def pushAll (dst src : List α) : List α :=
  src.foldl (fun a b => a ++ [b]) dst

/-- The part of `TrackShoeDoublePin::Create` before the visualization data:
shoe and connector geometry and mass properties, contact material
information and collision geometry, with the visualization fields still at
their constructed defaults. -/
def createBase (d : JVal) : TrackShoePart :=
  let shoe := mget d ("Shoe")
  let conn := mget d ("Connector")
  let contact := mget d ("Contact")
  let coll := collShoeShapes (getArr (mget contact ("Shoe Shapes")))
  { shoe_length := getDouble (mget shoe ("Length"))
    shoe_width := getDouble (mget shoe ("Width"))
    shoe_height := getDouble (mget shoe ("Height"))
    shoe_mass := getDouble (mget shoe ("Mass"))
    shoe_inertia := ReadVectorJSON (mget shoe ("Inertia"))
    connector_radius := getDouble (mget conn ("Radius"))
    connector_length := getDouble (mget conn ("Length"))
    connector_width := getDouble (mget conn ("Width"))
    connector_mass := getDouble (mget conn ("Mass"))
    connector_inertia := ReadVectorJSON (mget conn ("Inertia"))
    cyl_mat_info := ReadMaterialInfoJSON (mget contact ("Connector Material"))
    shoe_mat_info :=
      (getArr (mget contact ("Shoe Materials"))).foldl
        (fun acc m => acc ++ [ReadMaterialInfoJSON m]) []
    coll_boxes := coll.1
    coll_cylinders := coll.2
    meshFile := ""
    has_mesh := false
    vis_boxes := []
    vis_cylinders := [] }

/-- The visualization tail of `Create`: with a "Visualization" member, read
"Mesh" and "Primitives"; without one, default the visualization shapes to
the collision shapes. -/
def applyVisualization (d : JVal) (base : TrackShoePart) : TrackShoePart :=
  if hasMember d ("Visualization") then
    let vis := mget d ("Visualization")
    let base2 :=
      if hasMember vis ("Mesh") then
        { base with meshFile := getString (mget vis ("Mesh")), has_mesh := true }
      else base
    if hasMember vis ("Primitives") then
      let vp := visShoeShapes (getArr (mget vis ("Primitives")))
      { base2 with vis_boxes := vp.1, vis_cylinders := vp.2 }
    else base2
  else
    { base with
      vis_boxes := pushAll base.vis_boxes base.coll_boxes
      vis_cylinders := pushAll base.vis_cylinders base.coll_cylinders }

/-- `TrackShoeDoublePin::Create`. -/
def Create (d : JVal) : TrackShoePart := applyVisualization d (createBase d)

/-- The specification-side description of one "Shoe Shapes" entry of type
BOX. -/
def boxOfShape (shape : JVal) : Option BoxShapeJ :=
  if getString (mget shape ("Type")) == "BOX" then
    some ⟨ReadVectorJSON (mget shape ("Location")),
          ReadQuaternionJSON (mget shape ("Orientation")),
          ReadVectorJSON (mget shape ("Dimensions")),
          getIntJ (mget shape ("Material Index"))⟩
  else none

/-- The specification-side description of one "Shoe Shapes" entry of type
CYLINDER. -/
def cylOfShape (shape : JVal) : Option CylShapeJ :=
  if getString (mget shape ("Type")) == "BOX" then none
  else if getString (mget shape ("Type")) == "CYLINDER" then
    some ⟨ReadVectorJSON (mget shape ("Location")),
          ReadQuaternionJSON (mget shape ("Orientation")),
          getDouble (mget shape ("Radius")),
          getDouble (mget shape ("Length")),
          getIntJ (mget shape ("Material Index"))⟩
  else none

/-- The specification-side description of one "Primitives" entry of type
BOX. -/
def visBoxOfShape (shape : JVal) : Option BoxShapeJ :=
  if getString (mget shape ("Type")) == "BOX" then
    some ⟨ReadVectorJSON (mget shape ("Location")),
          ReadQuaternionJSON (mget shape ("Orientation")),
          ReadVectorJSON (mget shape ("Dimensions")), -1⟩
  else none

/-- The specification-side description of one "Primitives" entry of type
CYLINDER. -/
def visCylOfShape (shape : JVal) : Option CylShapeJ :=
  if getString (mget shape ("Type")) == "BOX" then none
  else if getString (mget shape ("Type")) == "CYLINDER" then
    some ⟨ReadVectorJSON (mget shape ("Location")),
          ReadQuaternionJSON (mget shape ("Orientation")),
          getDouble (mget shape ("Radius")),
          getDouble (mget shape ("Length")), -1⟩
  else none

theorem pushAll_eq (dst src : List α) : pushAll dst src = dst ++ src := by
  induction src generalizing dst with
  | nil => simp [pushAll]
  | cons b rest ih =>
    simp only [pushAll, List.foldl_cons] at ih ⊢
    rw [ih, List.append_assoc]
    rfl

theorem collFold_eq (shapes : List JVal) (acc : List BoxShapeJ × List CylShapeJ) :
    shapes.foldl collStep acc =
      (acc.1 ++ shapes.filterMap boxOfShape,
       acc.2 ++ shapes.filterMap cylOfShape) := by
  induction shapes generalizing acc with
  | nil => simp
  | cons s rest ih =>
    rw [List.foldl_cons, ih]
    cases hb : getString (mget s ("Type")) == "BOX" with
    | true =>
      simp [collStep, boxOfShape, cylOfShape, hb, List.filterMap_cons]
    | false =>
      cases hc : getString (mget s ("Type")) == "CYLINDER" with
      | true =>
        simp [collStep, boxOfShape, cylOfShape, hb, hc, List.filterMap_cons]
      | false =>
        simp [collStep, boxOfShape, cylOfShape, hb, hc, List.filterMap_cons]

theorem visFold_eq (shapes : List JVal) (acc : List BoxShapeJ × List CylShapeJ) :
    shapes.foldl visStep acc =
      (acc.1 ++ shapes.filterMap visBoxOfShape,
       acc.2 ++ shapes.filterMap visCylOfShape) := by
  induction shapes generalizing acc with
  | nil => simp
  | cons s rest ih =>
    rw [List.foldl_cons, ih]
    cases hb : getString (mget s ("Type")) == "BOX" with
    | true =>
      simp [visStep, visBoxOfShape, visCylOfShape, hb, List.filterMap_cons]
    | false =>
      cases hc : getString (mget s ("Type")) == "CYLINDER" with
      | true =>
        simp [visStep, visBoxOfShape, visCylOfShape, hb, hc, List.filterMap_cons]
      | false =>
        simp [visStep, visBoxOfShape, visCylOfShape, hb, hc, List.filterMap_cons]

theorem matFold_eq (l : List JVal) (acc : List MatInfo) :
    l.foldl (fun acc m => acc ++ [ReadMaterialInfoJSON m]) acc =
      acc ++ l.map ReadMaterialInfoJSON := by
  induction l generalizing acc with
  | nil => simp
  | cons m rest ih =>
    rw [List.foldl_cons, ih, List.map_cons, List.append_assoc]
    rfl

/-- The visualization tail leaves every non-visualization field unchanged. -/
theorem applyVisualization_preserves (d : JVal) (base : TrackShoePart) :
    (applyVisualization d base).shoe_length = base.shoe_length ∧
      (applyVisualization d base).shoe_width = base.shoe_width ∧
      (applyVisualization d base).shoe_height = base.shoe_height ∧
      (applyVisualization d base).shoe_mass = base.shoe_mass ∧
      (applyVisualization d base).shoe_inertia = base.shoe_inertia ∧
      (applyVisualization d base).connector_radius = base.connector_radius ∧
      (applyVisualization d base).connector_length = base.connector_length ∧
      (applyVisualization d base).connector_width = base.connector_width ∧
      (applyVisualization d base).connector_mass = base.connector_mass ∧
      (applyVisualization d base).connector_inertia = base.connector_inertia ∧
      (applyVisualization d base).cyl_mat_info = base.cyl_mat_info ∧
      (applyVisualization d base).shoe_mat_info = base.shoe_mat_info ∧
      (applyVisualization d base).coll_boxes = base.coll_boxes ∧
      (applyVisualization d base).coll_cylinders = base.coll_cylinders := by
  by_cases h1 : hasMember d ("Visualization") = true
  · by_cases h2 : hasMember (mget d ("Visualization")) ("Mesh") = true <;>
      by_cases h3 : hasMember (mget d ("Visualization")) ("Primitives") = true <;>
        simp [applyVisualization, h1, h2, h3]
  · simp [applyVisualization, h1]

end TrackShoeDoublePin

namespace TrackShoeDoublePin

/-- C6: `TrackShoeDoublePin::Create` populates the part from the JSON
document: shoe length/width/height/mass/inertia from the "Shoe" object,
connector radius/length/width/mass/inertia from the "Connector" object, the
connector material from "Contact"/"Connector Material", one material-info
entry per element of "Contact"/"Shoe Materials", and one collision box or
cylinder per element of "Contact"/"Shoe Shapes" of type "BOX" or
"CYLINDER" (any other type is skipped). -/
theorem c6_create_populates_from_json (d : JVal) :
    (Create d).shoe_length = getDouble (mget (mget d ("Shoe")) ("Length")) ∧
      (Create d).shoe_width = getDouble (mget (mget d ("Shoe")) ("Width")) ∧
      (Create d).shoe_height = getDouble (mget (mget d ("Shoe")) ("Height")) ∧
      (Create d).shoe_mass = getDouble (mget (mget d ("Shoe")) ("Mass")) ∧
      (Create d).shoe_inertia =
        ReadVectorJSON (mget (mget d ("Shoe")) ("Inertia")) ∧
      (Create d).connector_radius =
        getDouble (mget (mget d ("Connector")) ("Radius")) ∧
      (Create d).connector_length =
        getDouble (mget (mget d ("Connector")) ("Length")) ∧
      (Create d).connector_width =
        getDouble (mget (mget d ("Connector")) ("Width")) ∧
      (Create d).connector_mass =
        getDouble (mget (mget d ("Connector")) ("Mass")) ∧
      (Create d).connector_inertia =
        ReadVectorJSON (mget (mget d ("Connector")) ("Inertia")) ∧
      (Create d).cyl_mat_info =
        ReadMaterialInfoJSON (mget (mget d ("Contact")) ("Connector Material")) ∧
      (Create d).shoe_mat_info =
        (getArr (mget (mget d ("Contact")) ("Shoe Materials"))).map
          ReadMaterialInfoJSON ∧
      (Create d).coll_boxes =
        (getArr (mget (mget d ("Contact")) ("Shoe Shapes"))).filterMap
          boxOfShape ∧
      (Create d).coll_cylinders =
        (getArr (mget (mget d ("Contact")) ("Shoe Shapes"))).filterMap
          cylOfShape := by
  obtain ⟨p1, p2, p3, p4, p5, p6, p7, p8, p9, p10, p11, p12, p13, p14⟩ :=
    applyVisualization_preserves d (createBase d)
  simp only [Create, p1, p2, p3, p4, p5, p6, p7, p8, p9, p10, p11, p12, p13, p14]
  refine ⟨rfl, rfl, rfl, rfl, rfl, rfl, rfl, rfl, rfl, rfl, rfl, ?_, ?_, ?_⟩
  · simp [createBase, matFold_eq]
  · simp [createBase, collShoeShapes, collFold_eq]
  · simp [createBase, collShoeShapes, collFold_eq]

/-- C7: when the JSON document has no "Visualization" member, the
visualization shapes default to the collision shapes (each collision box and
cylinder is copied); when a "Visualization" member is present, the
visualization lists come only from its "Primitives" entries (empty when
there are none, so the collision shapes are not copied), its "Mesh" entry
sets the mesh file and flag. -/
theorem c7_visualization_defaults (d : JVal) :
    (hasMember d ("Visualization") = false →
        (Create d).vis_boxes = (Create d).coll_boxes ∧
          (Create d).vis_cylinders = (Create d).coll_cylinders) ∧
      (hasMember d ("Visualization") = true →
        (Create d).vis_boxes =
            (getArr (mget (mget d ("Visualization")) ("Primitives"))).filterMap
              visBoxOfShape ∧
          (Create d).vis_cylinders =
            (getArr (mget (mget d ("Visualization")) ("Primitives"))).filterMap
              visCylOfShape ∧
          (Create d).has_mesh = hasMember (mget d ("Visualization")) ("Mesh") ∧
          (hasMember (mget d ("Visualization")) ("Mesh") = true →
            (Create d).meshFile =
              getString (mget (mget d ("Visualization")) ("Mesh")))) := by
  constructor
  · intro h0
    have h1 : ¬ hasMember d ("Visualization") = true := by simp [h0]
    constructor <;>
      simp [Create, applyVisualization, h1, pushAll_eq, createBase]
  · intro h1
    by_cases h3 : hasMember (mget d ("Visualization")) ("Primitives") = true
    · by_cases h2 : hasMember (mget d ("Visualization")) ("Mesh") = true <;>
        simp [Create, applyVisualization, h1, h2, h3, visShoeShapes,
          visFold_eq, createBase]
    · have h4 : mget (mget d ("Visualization")) ("Primitives") = JVal.null := by
        have e1 : mget (mget d ("Visualization")) ("Primitives") =
            (member (mget d ("Visualization")) ("Primitives")).getD JVal.null :=
          rfl
        cases hm : member (mget d ("Visualization")) ("Primitives") with
        | none => rw [e1, hm]; rfl
        | some v => exact absurd (by simp [hasMember, hm]) h3
      by_cases h2 : hasMember (mget d ("Visualization")) ("Mesh") = true <;>
        simp [Create, applyVisualization, h1, h2, h3, h4, getArr, createBase]

/-- Witness for C7: a document without "Visualization" (shapes default to
the collision shapes) and one with an empty "Visualization" object. -/
theorem c7_visualization_defaults_witness :
    ((Create (JVal.obj [])).vis_boxes = (Create (JVal.obj [])).coll_boxes ∧
        (Create (JVal.obj [])).vis_cylinders =
          (Create (JVal.obj [])).coll_cylinders) ∧
      ((Create (JVal.obj [(("Visualization"), JVal.obj [])])).vis_boxes =
          (getArr (mget (mget (JVal.obj [(("Visualization"), JVal.obj [])])
            ("Visualization")) ("Primitives"))).filterMap visBoxOfShape ∧
        (Create (JVal.obj [(("Visualization"), JVal.obj [])])).vis_cylinders =
          (getArr (mget (mget (JVal.obj [(("Visualization"), JVal.obj [])])
            ("Visualization")) ("Primitives"))).filterMap visCylOfShape ∧
        (Create (JVal.obj [(("Visualization"), JVal.obj [])])).has_mesh =
          hasMember (mget (JVal.obj [(("Visualization"), JVal.obj [])])
            ("Visualization")) ("Mesh") ∧
        (hasMember (mget (JVal.obj [(("Visualization"), JVal.obj [])])
            ("Visualization")) ("Mesh") = true →
          (Create (JVal.obj [(("Visualization"), JVal.obj [])])).meshFile =
            getString (mget (mget (JVal.obj [(("Visualization"), JVal.obj [])])
              ("Visualization")) ("Mesh")))) :=
  ⟨(c7_visualization_defaults (JVal.obj [])).1 rfl,
   (c7_visualization_defaults
      (JVal.obj [(("Visualization"), JVal.obj [])])).2 (by decide)⟩

end TrackShoeDoublePin

namespace TireNodeRigid

open ChVSGApp (V3 vsub vlen)

/-- Modelled from the spec: the engine's vector cross product (`Vcross`,
outside the excerpt), the standard one. -/
def vcross (u v : V3) : V3 :=
  ⟨u.y * v.z - u.z * v.y, u.z * v.x - u.x * v.z, u.x * v.y - u.y * v.x⟩

/-- The area assigned to one connectivity triangle in
`ChVehicleCosimTireNodeRigid::InitializeTire`: half the length of the cross
product of its two edge vectors (`0.5 * Vcross(v2 - v1, v3 - v1).Length()`);
vertex indices outside the vertex list are modelled by a zero default. -/
noncomputable def triArea (verts : List V3) (t : Nat × Nat × Nat) : ℝ :=
  (1 / 2) *
    vlen (vcross
      (vsub (verts.getD t.2.1 ⟨0, 0, 0⟩) (verts.getD t.1 ⟨0, 0, 0⟩))
      (vsub (verts.getD t.2.2 ⟨0, 0, 0⟩) (verts.getD t.1 ⟨0, 0, 0⟩)))

/-- `m_adjElements[slot].push_back(ie)`. -/
def pushAdj (adj : Nat → List Nat) (slot ie : Nat) : Nat → List Nat :=
  fun w => if w = slot then adj w ++ [ie] else adj w

/-- The adjacency-building loop over the (indexed) triangles: for each
triangle `ie` with vertices `(x, y, z)`, `ie` is pushed onto the adjacency
lists of `x`, `y` and `z` in that order. -/
def buildAdjFrom (adj : Nat → List Nat) :
    List (Nat × (Nat × Nat × Nat)) → Nat → List Nat
  | [] => adj
  | (ie, t) :: rest =>
    buildAdjFrom (pushAdj (pushAdj (pushAdj adj t.1 ie) t.2.1 ie) t.2.2 ie) rest

/-- `m_adjElements` after the first loop of `InitializeTire`. -/
def adjElements (tris : List (Nat × Nat × Nat)) : Nat → List Nat :=
  buildAdjFrom (fun _ => []) tris.enum

/-- How many of the three slots of triangle `t` reference vertex `v`. -/
def refsCount (t : Nat × Nat × Nat) (v : Nat) : Nat :=
  (if t.1 = v then 1 else 0) + (if t.2.1 = v then 1 else 0) +
    (if t.2.2 = v then 1 else 0)

/-- The specification-side description of the adjacency of vertex `v`: the
indices of the triangles referencing `v`, in connectivity order, each with
the multiplicity of its references. -/
def adjSpec (tris : List (Nat × Nat × Nat)) (v : Nat) : List Nat :=
  (tris.enum.map (fun p => List.replicate (refsCount p.2 v) p.1)).flatten

/-- `m_vertexArea[v]` as computed by the second loop of `InitializeTire`:
the sum of the areas of the triangles adjacent to `v` divided by the number
of adjacent triangles. -/
noncomputable def vertexArea (verts : List V3) (tris : List (Nat × Nat × Nat))
    (v : Nat) : ℝ :=
  ((adjElements tris v).map
      (fun ie => triArea verts (tris.getD ie (0, 0, 0)))).sum /
    ((adjElements tris v).length : ℝ)

theorem pushAdj3_eq (adj : Nat → List Nat) (t : Nat × Nat × Nat) (ie v : Nat) :
    pushAdj (pushAdj (pushAdj adj t.1 ie) t.2.1 ie) t.2.2 ie v =
      adj v ++ List.replicate (refsCount t v) ie := by
  rcases t with ⟨a, b, c⟩
  by_cases h1 : a = v <;> by_cases h2 : b = v <;> by_cases h3 : c = v <;>
    simp [pushAdj, refsCount, h1, h2, h3, List.replicate_succ,
      fun h : ¬ a = v => (Ne.symm h : ¬ v = a),
      fun h : ¬ b = v => (Ne.symm h : ¬ v = b),
      fun h : ¬ c = v => (Ne.symm h : ¬ v = c)]

theorem buildAdjFrom_eq (l : List (Nat × (Nat × Nat × Nat)))
    (adj : Nat → List Nat) (v : Nat) :
    buildAdjFrom adj l v =
      adj v ++ (l.map (fun p => List.replicate (refsCount p.2 v) p.1)).flatten := by
  induction l generalizing adj with
  | nil => simp [buildAdjFrom]
  | cons p rest ih =>
    rcases p with ⟨ie, t⟩
    rw [buildAdjFrom, ih, pushAdj3_eq, List.map_cons, List.flatten_cons,
      List.append_assoc]

theorem adjElements_eq_spec (tris : List (Nat × Nat × Nat)) (v : Nat) :
    adjElements tris v = adjSpec tris v := by
  rw [adjElements, adjSpec, buildAdjFrom_eq]
  rfl

theorem adjSpec_length (v : Nat) (l : List (Nat × (Nat × Nat × Nat))) :
    ((l.map (fun p => List.replicate (refsCount p.2 v) p.1)).flatten).length =
      (l.map (fun p => refsCount p.2 v)).sum := by
  induction l with
  | nil => rfl
  | cons p rest ih => simp [ih]

end TireNodeRigid

namespace TireNodeRigid

/-- C8: the adjacency lists built by `InitializeTire` hold exactly the
triangles referencing each vertex (in connectivity order, with slot
multiplicity); under the precondition that every mesh vertex is referenced
by at least one triangle, the divisor `m_adjElements[v].size()` is nonzero
for every vertex (so the computation is total) and `m_vertexArea[v]` is the
arithmetic mean of the areas of the triangles adjacent to `v`; a vertex
referenced by no triangle has divisor zero. -/
theorem c8_vertexArea_mean (verts : List ChVSGApp.V3)
    (tris : List (Nat × Nat × Nat))
    (h : ∀ v < verts.length, ∃ t ∈ tris, 0 < refsCount t v) :
    (∀ v : Nat, adjElements tris v = adjSpec tris v) ∧
      (∀ v < verts.length,
        (adjElements tris v).length ≠ 0 ∧
          vertexArea verts tris v =
            ((adjSpec tris v).map
                (fun ie => triArea verts (tris.getD ie (0, 0, 0)))).sum /
              ((adjSpec tris v).length : ℝ)) ∧
      (∀ v : Nat, (∀ t ∈ tris, refsCount t v = 0) →
        (adjElements tris v).length = 0) := by
  refine ⟨adjElements_eq_spec tris, fun v hv => ?_, fun v h0 => ?_⟩
  · have hlen : (adjElements tris v).length =
        (tris.enum.map (fun p => refsCount p.2 v)).sum := by
      rw [adjElements_eq_spec, adjSpec, adjSpec_length]
    obtain ⟨t, ht, hpos⟩ := h v hv
    obtain ⟨i, hi, hit⟩ := List.mem_iff_getElem.mp ht
    have henum : (i, t) ∈ tris.enum := by
      rw [List.mk_mem_enum_iff_getElem?, List.getElem?_eq_getElem hi, hit]
    have hmem : refsCount t v ∈ tris.enum.map (fun p => refsCount p.2 v) :=
      List.mem_map_of_mem _ henum
    have hle := List.le_sum_of_mem hmem
    refine ⟨by omega, ?_⟩
    rw [vertexArea, adjElements_eq_spec]
  · have h0' : (tris.enum.map (fun p => refsCount p.2 v)).sum = 0 := by
      rw [List.sum_eq_zero_iff]
      intro x hx
      obtain ⟨p, hp, rfl⟩ := List.mem_map.mp hx
      rcases p with ⟨i2, t2⟩
      rw [List.mk_mem_enum_iff_getElem?] at hp
      exact h0 t2 (List.getElem?_mem hp)
    rw [adjElements_eq_spec, adjSpec, adjSpec_length]
    exact h0'

/-- Witness for C8: a single triangle over three vertices. -/
theorem c8_vertexArea_mean_witness :
    (∀ v : Nat,
        adjElements [(0, 1, 2)] v = adjSpec [(0, 1, 2)] v) ∧
      (∀ v < (([⟨0, 0, 0⟩, ⟨1, 0, 0⟩, ⟨0, 1, 0⟩] : List ChVSGApp.V3)).length,
        (adjElements [(0, 1, 2)] v).length ≠ 0 ∧
          vertexArea [⟨0, 0, 0⟩, ⟨1, 0, 0⟩, ⟨0, 1, 0⟩] [(0, 1, 2)] v =
            ((adjSpec [(0, 1, 2)] v).map
                (fun ie => triArea [⟨0, 0, 0⟩, ⟨1, 0, 0⟩, ⟨0, 1, 0⟩]
                  ([(0, 1, 2)].getD ie (0, 0, 0)))).sum /
              ((adjSpec [(0, 1, 2)] v).length : ℝ)) ∧
      (∀ v : Nat, (∀ t ∈ [(0, 1, 2)], refsCount t v = 0) →
        (adjElements [(0, 1, 2)] v).length = 0) :=
  c8_vertexArea_mean [⟨0, 0, 0⟩, ⟨1, 0, 0⟩, ⟨0, 1, 0⟩] [(0, 1, 2)] (by decide)

end TireNodeRigid
